import Mathlib

/-!
Shallow embedding of the Quiz Master application: the pure logic of
backend.py (JSON-block extraction, quiz-schema validation, quiz
generation post-processing, answer evaluation, PDF text concatenation)
and the session-state update of the quiz-generation pipeline in app.py.

Python strings are modelled as Lean `String`/`List Char`; Python dicts
coming from `json.loads` are modelled as association lists with the
first binding of a key the visible one; Python `None` appearing as an
answer value is modelled by `Option.none`; code that can raise models
its result as `Except String`.  External collaborators (the LLM call,
`json.loads`, the PDF reader, the text splitter) enter as parameters:
theorems quantify over their outputs.
-/

set_option maxRecDepth 8000

/-! ## Python string primitives -/

/-- Whitespace characters removed by Python `str.strip()` (ASCII range,
which is all the application ever feeds it). -/
def isPySpace (c : Char) : Bool :=
  c == ' ' || c == '\t' || c == '\n' || c == '\r' || c == '\x0b' || c == '\x0c'

/-- Python `str.strip()` on a character list. -/
def pyStripList (t : List Char) : List Char :=
  ((t.dropWhile isPySpace).reverse.dropWhile isPySpace).reverse

/-- Python `str.strip()` on a string. -/
def pyStripStr (s : String) : String :=
  String.mk (pyStripList s.data)

/-- Python `str.upper()` (ASCII letters, which is all the app compares). -/
def pyUpperStr (s : String) : String :=
  String.mk (s.data.map Char.toUpper)

/-- The `.strip().upper()` normalization used by `evaluate_answers`. -/
def pyNormalize (s : String) : String :=
  pyUpperStr (pyStripStr s)

/-- Python `str.find` for a single-character needle: index of the first
occurrence, `none` standing for Python's `-1`. -/
def pyFindChar (ch : Char) : List Char → Option Nat
  | [] => none
  | c :: rest => if c == ch then some 0 else (pyFindChar ch rest).map (· + 1)

/-- Python `str.rfind` for a single-character needle: index of the last
occurrence, `none` standing for Python's `-1`. -/
def pyRFindChar (ch : Char) (t : List Char) : Option Nat :=
  (pyFindChar ch t.reverse).map (fun k => t.length - 1 - k)

/-- The opening brace character. -/
def lbrace : Char := Char.ofNat 123

/-- The closing brace character. -/
def rbrace : Char := Char.ofNat 125

/-! ## JSON values

`Json.obj` models a Python dict produced by `json.loads`; lookup is by
string key.  JSON numbers never matter to any claim and are modelled as
integers. -/

inductive Json where
  | null
  | bool (b : Bool)
  | num (n : Int)
  | str (s : String)
  | arr (xs : List Json)
  | obj (kvs : List (String × Json))
deriving Repr

/-! ## backend._extract_json_block -/

/-- Semantics of `re.search(r"\{[\s\S]*\}\s*$", t)` restricted to
`group(0)`: a match starts at the first opening brace and requires some
later closing brace followed only by whitespace up to the end of the
string; the greedy quantifiers then make `group(0)` run to the end of
the string. -/
def reSearchBraceToEnd (t : List Char) : Option (List Char) :=
  match pyFindChar lbrace t with
  | none => none
  | some i =>
    if ((t.drop (i + 1)).reverse.dropWhile isPySpace).head? = some rbrace then
      some (t.drop i)
    else
      none

/-- `backend._extract_json_block`: regex search over the stripped text,
falling back to the span from the first opening brace to the last
closing brace of the original text, and raising `ValueError` (modelled
as `Except.error`) when neither yields a span. -/
def _extract_json_block (text : String) : Except String String :=
  let stripped := pyStripList text.data
  match reSearchBraceToEnd stripped with
  | some m => Except.ok (String.mk m)
  | none =>
    match pyFindChar lbrace text.data, pyRFindChar rbrace text.data with
    | some s, some e =>
      if e ≤ s then Except.error "No JSON object found in model output."
      else Except.ok (String.mk ((text.data.drop s).take (e + 1 - s)))
    | _, _ => Except.error "No JSON object found in model output."

/-! ## backend._validate_quiz_schema -/

/-- The three difficulty tiers, in the order the source iterates them. -/
def tierNames : List String := ["basic", "intermediate", "hard"]

/-- The four per-question fields checked by the validator, in source order. -/
def requiredKeys : List String := ["question", "options", "correct", "explanation"]

/-- The four option letters, in source order. -/
def letters : List String := ["A", "B", "C", "D"]

/-- The loop `for key in [...]: if key not in q: raise` of the validator. -/
def checkKeys (qkv : List (String × Json)) (level : String) (idx : Nat) :
    List String → Except String Unit
  | [] => Except.ok ()
  | k :: ks =>
    match qkv.lookup k with
    | none =>
      Except.error ("Missing key \"" ++ k ++ "\" in " ++ level ++ "[" ++ toString idx ++ "].")
    | some _ => checkKeys qkv level idx ks

/-- The loop `for k in ["A","B","C","D"]: if k not in q["options"]: raise`. -/
def checkOptionKeys (ov : List (String × Json)) (level : String) (idx : Nat) :
    List String → Except String Unit
  | [] => Except.ok ()
  | k :: ks =>
    match ov.lookup k with
    | none =>
      Except.error ("Missing option \"" ++ k ++ "\" in " ++ level ++ "[" ++ toString idx ++ "].options.")
    | some _ => checkOptionKeys ov level idx ks

/-- `isinstance(q["options"], dict)` plus the option-letter loop.  The
`none` branch is unreachable in the composed validator because
`checkKeys` has already established presence of `"options"`. -/
def checkOptionsField (qkv : List (String × Json)) (level : String) (idx : Nat) :
    Except String Unit :=
  match qkv.lookup "options" with
  | some (Json.obj ov) => checkOptionKeys ov level idx letters
  | some _ => Except.error (level ++ "[" ++ toString idx ++ "].options must be an object.")
  | none => Except.error "KeyError: options"

/-- Python `q["correct"] in ["A","B","C","D"]`: equality against the four
letter strings. -/
def isLetterJson (c : Json) : Bool :=
  match c with
  | Json.str s => s == "A" || s == "B" || s == "C" || s == "D"
  | _ => false

/-- `if q["correct"] not in ["A","B","C","D"]: raise`.  The `none` branch
is unreachable in the composed validator. -/
def checkCorrectField (qkv : List (String × Json)) (level : String) (idx : Nat) :
    Except String Unit :=
  match qkv.lookup "correct" with
  | some c =>
    if isLetterJson c then Except.ok ()
    else Except.error ("Invalid correct value in " ++ level ++ "[" ++ toString idx ++ "].")
  | none => Except.error "KeyError: correct"

/-- The per-question body of the validator loop: object check, required
keys, options object and letters, correct letter — in source order. -/
def checkQuestion (level : String) (idx : Nat) (q : Json) : Except String Unit :=
  match q with
  | Json.obj qkv =>
    match checkKeys qkv level idx requiredKeys with
    | Except.error e => Except.error e
    | Except.ok _ =>
      match checkOptionsField qkv level idx with
      | Except.error e => Except.error e
      | Except.ok _ => checkCorrectField qkv level idx
  | _ => Except.error (level ++ "[" ++ toString idx ++ "] is not an object.")

/-- `for idx, q in enumerate(data[level]): ...` of the validator. -/
def checkQuestionList (level : String) : List Json → Nat → Except String Unit
  | [], _ => Except.ok ()
  | q :: rest, idx =>
    match checkQuestion level idx q with
    | Except.error e => Except.error e
    | Except.ok _ => checkQuestionList level rest (idx + 1)

/-- One iteration of the validator's tier loop: presence and list-ness of
the tier, exact length, then the per-question checks.  A non-dict
`data` cannot arise from a parsed JSON object and is modelled as the
same missing-tier error Python would raise on membership failure. -/
def checkLevel (data : Json) (n : Nat) (level : String) : Except String Unit :=
  match data with
  | Json.obj kvs =>
    match kvs.lookup level with
    | some (Json.arr qs) =>
      if qs.length ≠ n then
        Except.error ("\"" ++ level ++ "\" must have exactly " ++ toString n ++
          " questions; got " ++ toString qs.length ++ ".")
      else checkQuestionList level qs 0
    | some _ => Except.error ("Missing or invalid \"" ++ level ++ "\" list in quiz JSON.")
    | none => Except.error ("Missing or invalid \"" ++ level ++ "\" list in quiz JSON.")
  | _ => Except.error ("Missing or invalid \"" ++ level ++ "\" list in quiz JSON.")

/-- `backend._validate_quiz_schema`: the tier loop over basic,
intermediate, hard, raising on the first violation. -/
def _validate_quiz_schema (data : Json) (n : Nat) : Except String Unit :=
  match checkLevel data n "basic" with
  | Except.error e => Except.error e
  | Except.ok _ =>
    match checkLevel data n "intermediate" with
    | Except.error e => Except.error e
    | Except.ok _ => checkLevel data n "hard"

/-! ## backend.generate_quiz_from_text

The LLM chain and `json.loads` are external collaborators: the raw model
response and the JSON parser enter as parameters and the function is the
composition the source performs after the chain returns. -/

/-- `backend.generate_quiz_from_text` after the LLM call: extract the
JSON block from the raw response, parse it (`parseJson` standing for
`json.loads`), validate, and return the parsed data. -/
def generate_quiz_from_text (parseJson : String → Except String Json)
    (raw : String) (questions_per_level : Nat) : Except String Json :=
  match _extract_json_block raw with
  | Except.error e => Except.error e
  | Except.ok json_str =>
    match parseJson json_str with
    | Except.error e => Except.error e
    | Except.ok data =>
      match _validate_quiz_schema data questions_per_level with
      | Except.error e => Except.error e
      | Except.ok _ => Except.ok data

/-! ## backend.evaluate_answers

Answer maps are association lists `String × Option String`; a value
`none` is Python's `None` (what the UI stores for a question submitted
with no selection), a missing key is an absent answer. -/

/-- One feedback dictionary appended by `evaluate_answers`. -/
structure FeedbackEntry where
  question : Json
  result : String
  explanation : Json
deriving Repr

/-- Python `user_answers.get(key, "")`: the stored value when the key is
present (possibly `None`), the empty string otherwise. -/
def pyGetDefault (ua : List (String × Option String)) (k : String) : Option String :=
  match ua.lookup k with
  | some v => v
  | none => some ""

/-- Python iteration over `quiz_data[level]`: lists yield their elements,
strings their characters (as one-character strings), dicts their keys;
other values raise `TypeError`. -/
def pyIterate (v : Json) : Except String (List Json) :=
  match v with
  | Json.arr xs => Except.ok xs
  | Json.str s => Except.ok (s.data.map (fun c => Json.str (String.mk [c])))
  | Json.obj kvs => Except.ok (kvs.map (fun kv => Json.str kv.1))
  | _ => Except.error "TypeError: object is not iterable"

/-- The body of the `evaluate_answers` loop for one question: normalize
the stored correct letter (raising if it is not a string), fetch and
normalize the recorded answer (raising if it is `None`), compare, and
build the feedback entry from the question's text and explanation. -/
def evalQuestion (ua : List (String × Option String)) (level : String) (i : Nat)
    (q : Json) : Except String (Nat × FeedbackEntry) :=
  match q with
  | Json.obj qkv =>
    match qkv.lookup "correct" with
    | some (Json.str c) =>
      let correct := pyNormalize c
      match pyGetDefault ua (level ++ "_" ++ toString i) with
      | none => Except.error "AttributeError: NoneType has no attribute strip"
      | some raw =>
        let user_answer := pyNormalize raw
        let result :=
          if user_answer = correct then "Correct"
          else "Wrong (Correct: " ++ correct ++ ")"
        match qkv.lookup "question", qkv.lookup "explanation" with
        | some qt, some ex =>
          Except.ok (if user_answer = correct then 1 else 0,
            { question := qt, result := result, explanation := ex })
        | _, _ => Except.error "KeyError: question or explanation"
    | some _ => Except.error "AttributeError: value has no attribute strip"
    | none => Except.error "KeyError: correct"
  | _ => Except.error "TypeError: question is not a mapping"

/-- `for i, question in enumerate(quiz_data[level])`: accumulate score
increments and feedback entries in order. -/
def evalQuestions (ua : List (String × Option String)) (level : String) :
    List Json → Nat → Except String (Nat × List FeedbackEntry)
  | [], _ => Except.ok (0, [])
  | q :: rest, idx =>
    match evalQuestion ua level idx q with
    | Except.error e => Except.error e
    | Except.ok (s, fb) =>
      match evalQuestions ua level rest (idx + 1) with
      | Except.error e => Except.error e
      | Except.ok (srest, fbs) => Except.ok (s + srest, fb :: fbs)

/-- One tier of `evaluate_answers`: `quiz_data[level]` (KeyError when the
tier is missing), then the question loop. -/
def evalTier (ua : List (String × Option String)) (kvs : List (String × Json))
    (level : String) : Except String (Nat × List FeedbackEntry) :=
  match kvs.lookup level with
  | none => Except.error ("KeyError: " ++ level)
  | some v =>
    match pyIterate v with
    | Except.error e => Except.error e
    | Except.ok qs => evalQuestions ua level qs 0

/-- `backend.evaluate_answers`: tiers in the fixed order basic,
intermediate, hard; total score and concatenated feedback. -/
def evaluate_answers (ua : List (String × Option String)) (quiz_data : Json) :
    Except String (Nat × List FeedbackEntry) :=
  match quiz_data with
  | Json.obj kvs =>
    match evalTier ua kvs "basic" with
    | Except.error e => Except.error e
    | Except.ok (s1, f1) =>
      match evalTier ua kvs "intermediate" with
      | Except.error e => Except.error e
      | Except.ok (s2, f2) =>
        match evalTier ua kvs "hard" with
        | Except.error e => Except.error e
        | Except.ok (s3, f3) => Except.ok (s1 + s2 + s3, f1 ++ f2 ++ f3)
  | _ => Except.error "TypeError: quiz data is not a mapping"

/-! ## backend.extract_text_from_pdf

The PDF reader is the external collaborator; a document enters as the
list of per-page extraction results (`none` when the library yields no
text for a page, mirroring `page.extract_text()` returning a falsy
value). -/

/-- The loop of `extract_text_from_pdf`: the `text` list after appending
each truthy page extraction result in document order. -/
def collectPageTexts : List (Option String) → List String
  | [] => []
  | p :: rest =>
    match p with
    | some s => if s = "" then collectPageTexts rest else s :: collectPageTexts rest
    | none => collectPageTexts rest

/-- `backend.extract_text_from_pdf`: collect truthy page texts in
document order and join them with newlines. -/
def extract_text_from_pdf (pages : List (Option String)) : String :=
  String.intercalate "\n" (collectPageTexts pages)

/-- The text a page contributes: `none` for pages whose extraction result
is falsy (absent or empty). -/
def pageContribution : Option String → Option String
  | some s => if s = "" then none else some s
  | none => none

/-! ## app.py session state and the generation pipeline -/

/-- The Streamlit session state fields the generation pipeline can see:
current quiz, recorded answers, per-question submission locks, cached
results, info banner, uploaded file (opaque), and the sidebar
settings. -/
structure SessionState where
  quiz_data : Option Json
  user_answers : List (String × Option String)
  submitted_q : List (String × Bool)
  results_cache : Option (Nat × List FeedbackEntry)
  material_info : String
  pdf_file : Option String
  chunk_size : Nat
  chunk_overlap : Nat
  n_per_level : Nat

/-- The quiz-generation stage of the generate-button pipeline (app.py
lines 126-143), entered after text extraction and chunking have produced
`material`.  On success the quiz is installed and answers, locks and
results are reset; on any generation error the handler clears
`quiz_data` and `results_cache` and touches nothing else.  The model
response for this material and the JSON parser are parameters. -/
def generate_pipeline (material : String) (parseJson : String → Except String Json)
    (raw : String) (s : SessionState) : SessionState :=
  if material = "" then s
  else
    match generate_quiz_from_text parseJson raw s.n_per_level with
    | Except.ok quiz =>
      { s with quiz_data := some quiz, user_answers := [], submitted_q := [],
               results_cache := none }
    | Except.error _ =>
      { s with quiz_data := none, results_cache := none }

/-! ## Specification-side predicates

These are written from the spec's words (§3 data model, §4.3 step 5,
§4.4) and are compared against the source-derived functions above. -/

/-- Spec §3/§4.3: a well-formed question object — the four required
fields present, `options` an object containing all four letter keys,
`correct` one of the four letters. -/
def QuestionWF (q : Json) : Prop :=
  ∃ qkv, q = Json.obj qkv ∧
    (∀ k ∈ requiredKeys, ∃ v, qkv.lookup k = some v) ∧
    (∃ ov, qkv.lookup "options" = some (Json.obj ov) ∧
      ∀ l ∈ letters, ∃ w, ov.lookup l = some w) ∧
    (∃ c, qkv.lookup "correct" = some (Json.str c) ∧ c ∈ letters)

/-- Spec §4.3 step 5, for one tier: the tier key present, an array of
length exactly `n`, every element a well-formed question. -/
def LevelWF (data : Json) (n : Nat) (level : String) : Prop :=
  ∃ kvs qs, data = Json.obj kvs ∧ kvs.lookup level = some (Json.arr qs) ∧
    qs.length = n ∧ ∀ q ∈ qs, QuestionWF q

/-- Spec §4.3 step 5: all three tiers well-formed. -/
def QuizWF (data : Json) (n : Nat) : Prop :=
  ∀ level ∈ tierNames, LevelWF data n level

/-- The shape `evaluate_answers` needs from a question to return
normally: an object whose `correct` field is a string and whose
`question` and `explanation` fields are present. -/
def evalReady (q : Json) : Bool :=
  match q with
  | Json.obj qkv =>
    (match qkv.lookup "correct" with
     | some (Json.str _) => true
     | _ => false)
    && (qkv.lookup "question").isSome && (qkv.lookup "explanation").isSome
  | _ => false

/-- An answer map with no `None` values (spec §3: values are selected
choice letters; absence is expressed by a missing key). -/
def NoneFree (ua : List (String × Option String)) : Prop :=
  ∀ p ∈ ua, p.2 ≠ none

/-- Spec §4.4: the recorded answer for a key — the stored letter when
one is recorded, the empty string otherwise. -/
def specRecorded (ua : List (String × Option String)) (k : String) : String :=
  match ua.lookup k with
  | some (some s) => s
  | _ => ""

/-- The stored correct letter of a question (defaulting where the
theorems' hypotheses rule the default out). -/
def specCorrectOf (q : Json) : String :=
  match q with
  | Json.obj qkv =>
    match qkv.lookup "correct" with
    | some (Json.str c) => c
    | _ => ""
  | _ => ""

/-- A field of a question object (defaulting where the theorems'
hypotheses rule the default out). -/
def specFieldOf (q : Json) (k : String) : Json :=
  match q with
  | Json.obj qkv => (qkv.lookup k).getD Json.null
  | _ => Json.null

/-- Spec §4.4: the normalized recorded answer equals the normalized
correct letter. -/
def specMatch (ua : List (String × Option String)) (level : String) (i : Nat)
    (q : Json) : Bool :=
  pyNormalize (specRecorded ua (level ++ "_" ++ toString i)) ==
    pyNormalize (specCorrectOf q)

/-- Spec §3: the feedback entry for one question — its text, a
correct/wrong-with-correct-letter result, its explanation. -/
def specEntry (ua : List (String × Option String)) (level : String) (i : Nat)
    (q : Json) : FeedbackEntry :=
  { question := specFieldOf q "question",
    result :=
      if specMatch ua level i q then "Correct"
      else "Wrong (Correct: " ++ pyNormalize (specCorrectOf q) ++ ")",
    explanation := specFieldOf q "explanation" }

/-- Spec §4.4: the number of questions of a tier whose normalized
recorded answer equals the normalized correct letter. -/
def specTierScore (ua : List (String × Option String)) (level : String)
    (qs : List Json) : Nat :=
  (qs.enum).countP (fun p => specMatch ua level p.1 p.2)

/-- Spec §4.4: one feedback entry per question of a tier, in ascending
index order. -/
def specTierFeedback (ua : List (String × Option String)) (level : String)
    (qs : List Json) : List FeedbackEntry :=
  (qs.enum).map (fun p => specEntry ua level p.1 p.2)

/-! ## Concrete fixtures used by witnesses and counterexamples -/

/-- An options object with exactly the four letter keys. -/
def optsABCD : Json :=
  Json.obj [("A", Json.str "a"), ("B", Json.str "b"), ("C", Json.str "c"),
            ("D", Json.str "d")]

/-- The field bindings of `q1`. -/
def q1kv : List (String × Json) :=
  [("question", Json.str "Q1"), ("options", optsABCD),
   ("correct", Json.str "A"), ("explanation", Json.str "E1")]

/-- A well-formed question whose correct letter is A. -/
def q1 : Json := Json.obj q1kv

/-- A well-formed question whose correct letter is B. -/
def q2 : Json :=
  Json.obj [("question", Json.str "Q2"), ("options", optsABCD),
            ("correct", Json.str "B"), ("explanation", Json.str "E2")]

/-- A well-formed quiz with one question per tier. -/
def quizGood1 : Json :=
  Json.obj [("basic", Json.arr [q1]), ("intermediate", Json.arr [q1]),
            ("hard", Json.arr [q1])]

/-- A near-miss quiz: basic holds one question while the other tiers
hold two well-formed questions each. -/
def nearMissQuiz : Json :=
  Json.obj [("basic", Json.arr [q1]), ("intermediate", Json.arr [q1, q2]),
            ("hard", Json.arr [q1, q2])]

/-- A quiz carrying an extra top-level key, a question with an extra
field, and an options object with an extra letter key. -/
def extrasQuiz : Json :=
  Json.obj [("meta", Json.str "v1"),
    ("basic", Json.arr [Json.obj [("question", Json.str "Q1"),
      ("options", Json.obj [("A", Json.str "a"), ("B", Json.str "b"),
        ("C", Json.str "c"), ("D", Json.str "d"), ("E", Json.str "extra")]),
      ("correct", Json.str "A"), ("explanation", Json.str "E1"),
      ("difficulty", Json.str "low")]]),
    ("intermediate", Json.arr [q2]), ("hard", Json.arr [q1])]

/-- A quiz whose basic tier holds the two questions of the evaluator
example (Q1 correct A, Q2 correct B). -/
def quizEval2 : Json :=
  Json.obj [("basic", Json.arr [q1, q2]), ("intermediate", Json.arr []),
            ("hard", Json.arr [])]

/-- A populated session state: an earlier quiz was generated, answered
and scored, a file is uploaded, settings are set. -/
def s0C8 : SessionState :=
  { quiz_data := some quizGood1,
    user_answers := [("basic_0", some "A")],
    submitted_q := [("basic_0", true)],
    results_cache := some (2, []),
    material_info := "Using 4 chunks. Sent 3 chunk(s) to the model.",
    pdf_file := some "notes.pdf",
    chunk_size := 1200,
    chunk_overlap := 240,
    n_per_level := 5 }

/-- A parser stub standing for json.loads; the C8 scenario fails before
it is ever consulted. -/
def pjC8 : String → Except String Json := fun _ => Except.ok Json.null

/-- A parser stub that returns the valid one-question-per-tier quiz. -/
def pjGood1 : String → Except String Json := fun _ => Except.ok quizGood1

/-! ## Validator correctness lemmas -/

theorem checkKeys_ok_iff (qkv : List (String × Json)) (level : String) (idx : Nat)
    (ks : List String) :
    checkKeys qkv level idx ks = Except.ok () ↔ ∀ k ∈ ks, ∃ v, qkv.lookup k = some v := by
  induction ks with
  | nil => simp [checkKeys]
  | cons k ks ih =>
    cases hl : qkv.lookup k with
    | none => simp [checkKeys, hl]
    | some v => simp [checkKeys, hl, ih]

theorem checkOptionKeys_ok_iff (ov : List (String × Json)) (level : String) (idx : Nat)
    (ks : List String) :
    checkOptionKeys ov level idx ks = Except.ok () ↔ ∀ k ∈ ks, ∃ w, ov.lookup k = some w := by
  induction ks with
  | nil => simp [checkOptionKeys]
  | cons k ks ih =>
    cases hl : ov.lookup k with
    | none => simp [checkOptionKeys, hl]
    | some v => simp [checkOptionKeys, hl, ih]

theorem checkOptionsField_ok_iff (qkv : List (String × Json)) (level : String) (idx : Nat) :
    checkOptionsField qkv level idx = Except.ok () ↔
      ∃ ov, qkv.lookup "options" = some (Json.obj ov) ∧
        ∀ l ∈ letters, ∃ w, ov.lookup l = some w := by
  cases ho : qkv.lookup "options" with
  | none => simp [checkOptionsField, ho]
  | some v => cases v <;> simp [checkOptionsField, ho, checkOptionKeys_ok_iff]

theorem isLetterJson_iff (c : Json) :
    isLetterJson c = true ↔ ∃ s, c = Json.str s ∧ s ∈ letters := by
  cases c <;> simp [isLetterJson, letters]
  tauto

theorem checkCorrectField_ok_iff (qkv : List (String × Json)) (level : String) (idx : Nat) :
    checkCorrectField qkv level idx = Except.ok () ↔
      ∃ s, qkv.lookup "correct" = some (Json.str s) ∧ s ∈ letters := by
  cases hc : qkv.lookup "correct" with
  | none => simp [checkCorrectField, hc]
  | some c =>
    by_cases hl : isLetterJson c = true
    · obtain ⟨s, rfl, hs⟩ := (isLetterJson_iff c).mp hl
      simp [checkCorrectField, hc, hl, hs]
    · simp only [checkCorrectField, hc, if_neg hl]
      constructor
      · intro h; exact absurd h (by simp)
      · rintro ⟨s, hcs, hs⟩
        injection hcs with hcs
        exact absurd ((isLetterJson_iff c).mpr ⟨s, hcs, hs⟩) hl

theorem checkQuestion_ok_iff (level : String) (idx : Nat) (q : Json) :
    checkQuestion level idx q = Except.ok () ↔ QuestionWF q := by
  cases q with
  | obj qkv =>
    have hwf : QuestionWF (Json.obj qkv) ↔
        (∀ k ∈ requiredKeys, ∃ v, qkv.lookup k = some v) ∧
        (∃ ov, qkv.lookup "options" = some (Json.obj ov) ∧
          ∀ l ∈ letters, ∃ w, ov.lookup l = some w) ∧
        (∃ c, qkv.lookup "correct" = some (Json.str c) ∧ c ∈ letters) := by
      simp [QuestionWF]
    rw [hwf, ← checkKeys_ok_iff qkv level idx requiredKeys,
      ← checkOptionsField_ok_iff qkv level idx, ← checkCorrectField_ok_iff qkv level idx]
    cases hk : checkKeys qkv level idx requiredKeys with
    | error e => simp [checkQuestion, hk]
    | ok u =>
      cases u
      cases ho : checkOptionsField qkv level idx with
      | error e => simp [checkQuestion, hk, ho]
      | ok u2 => cases u2; simp [checkQuestion, hk, ho]
  | null => simp [checkQuestion, QuestionWF]
  | bool b => simp [checkQuestion, QuestionWF]
  | num n => simp [checkQuestion, QuestionWF]
  | str s => simp [checkQuestion, QuestionWF]
  | arr xs => simp [checkQuestion, QuestionWF]

theorem checkQuestionList_ok_iff (level : String) (qs : List Json) (idx : Nat) :
    checkQuestionList level qs idx = Except.ok () ↔ ∀ q ∈ qs, QuestionWF q := by
  induction qs generalizing idx with
  | nil => simp [checkQuestionList]
  | cons q rest ih =>
    rw [List.forall_mem_cons, ← checkQuestion_ok_iff level idx q]
    cases hq : checkQuestion level idx q with
    | error e => simp [checkQuestionList, hq]
    | ok u => cases u; simp [checkQuestionList, hq, ih (idx + 1)]

theorem checkLevel_ok_iff (data : Json) (n : Nat) (level : String) :
    checkLevel data n level = Except.ok () ↔ LevelWF data n level := by
  cases data with
  | obj kvs =>
    cases hl : kvs.lookup level with
    | none => simp [checkLevel, hl, LevelWF]
    | some v =>
      cases v with
      | arr qs =>
        by_cases hn : qs.length = n
        · simp [checkLevel, hl, hn, LevelWF, checkQuestionList_ok_iff]
        · simp [checkLevel, hl, hn, LevelWF]
      | null => simp [checkLevel, hl, LevelWF]
      | bool b => simp [checkLevel, hl, LevelWF]
      | num m => simp [checkLevel, hl, LevelWF]
      | str s => simp [checkLevel, hl, LevelWF]
      | obj kvs2 => simp [checkLevel, hl, LevelWF]
  | null => simp [checkLevel, LevelWF]
  | bool b => simp [checkLevel, LevelWF]
  | num m => simp [checkLevel, LevelWF]
  | str s => simp [checkLevel, LevelWF]
  | arr xs => simp [checkLevel, LevelWF]

theorem validate_ok_iff (data : Json) (n : Nat) :
    _validate_quiz_schema data n = Except.ok () ↔ QuizWF data n := by
  have h3 : QuizWF data n ↔ checkLevel data n "basic" = Except.ok () ∧
      checkLevel data n "intermediate" = Except.ok () ∧
      checkLevel data n "hard" = Except.ok () := by
    simp [QuizWF, tierNames, checkLevel_ok_iff]
  rw [h3]
  cases hb : checkLevel data n "basic" with
  | error e => simp [_validate_quiz_schema, hb]
  | ok u =>
    cases u
    cases hi : checkLevel data n "intermediate" with
    | error e => simp [_validate_quiz_schema, hb, hi]
    | ok u2 => cases u2; simp [_validate_quiz_schema, hb, hi]

/-! ## Evaluator correctness lemmas -/

theorem pyGetDefault_of_noneFree (ua : List (String × Option String)) (k : String)
    (h : NoneFree ua) : pyGetDefault ua k = some (specRecorded ua k) := by
  induction ua with
  | nil => simp [pyGetDefault, specRecorded, List.lookup]
  | cons p rest ih =>
    obtain ⟨a, b⟩ := p
    have hb : b ≠ none := h (a, b) (List.mem_cons_self _ _)
    have hrest : NoneFree rest := fun p hp => h p (List.mem_cons_of_mem _ hp)
    by_cases hk : k == a
    · obtain ⟨s, rfl⟩ := Option.ne_none_iff_exists'.mp hb
      simp [pyGetDefault, specRecorded, List.lookup, hk]
    · simpa [pyGetDefault, specRecorded, List.lookup, hk] using ih hrest

theorem evalQuestion_spec (ua : List (String × Option String)) (level : String)
    (i : Nat) (q : Json) (hq : evalReady q = true) (hua : NoneFree ua) :
    evalQuestion ua level i q =
      Except.ok ((if specMatch ua level i q then 1 else 0), specEntry ua level i q) := by
  cases q with
  | obj qkv =>
    cases hc : qkv.lookup "correct" with
    | none => simp [evalReady, hc] at hq
    | some c =>
      cases c with
      | str cs =>
        cases hqt : qkv.lookup "question" with
        | none => simp [evalReady, hc, hqt] at hq
        | some qt =>
          cases hex : qkv.lookup "explanation" with
          | none => simp [evalReady, hc, hqt, hex] at hq
          | some ex =>
            have hget := pyGetDefault_of_noneFree ua (level ++ "_" ++ toString i) hua
            by_cases hm : pyNormalize (specRecorded ua (level ++ "_" ++ toString i)) =
                pyNormalize cs
            · simp [evalQuestion, hc, hget, hqt, hex, hm, specMatch, specEntry,
                specCorrectOf, specFieldOf]
            · simp [evalQuestion, hc, hget, hqt, hex, hm, specMatch, specEntry,
                specCorrectOf, specFieldOf]
      | null => simp [evalReady, hc] at hq
      | bool b => simp [evalReady, hc] at hq
      | num n => simp [evalReady, hc] at hq
      | arr xs => simp [evalReady, hc] at hq
      | obj kvs2 => simp [evalReady, hc] at hq
  | null => simp [evalReady] at hq
  | bool b => simp [evalReady] at hq
  | num n => simp [evalReady] at hq
  | str s => simp [evalReady] at hq
  | arr xs => simp [evalReady] at hq

theorem evalQuestions_spec (ua : List (String × Option String)) (level : String)
    (qs : List Json) (i : Nat) (hqs : ∀ q ∈ qs, evalReady q = true)
    (hua : NoneFree ua) :
    evalQuestions ua level qs i =
      Except.ok ((List.enumFrom i qs).countP (fun p => specMatch ua level p.1 p.2),
        (List.enumFrom i qs).map (fun p => specEntry ua level p.1 p.2)) := by
  induction qs generalizing i with
  | nil => simp [evalQuestions]
  | cons q rest ih =>
    have hq := hqs q (List.mem_cons_self _ _)
    have hrest : ∀ r ∈ rest, evalReady r = true := fun r hr =>
      hqs r (List.mem_cons_of_mem _ hr)
    rw [List.enumFrom_cons]
    simp only [evalQuestions, evalQuestion_spec ua level i q hq hua, ih (i + 1) hrest,
      List.countP_cons, List.map_cons]
    by_cases hm : specMatch ua level i q = true
    · simp [hm, Nat.add_comm]
    · simp [hm]

theorem evaluate_answers_spec (ua : List (String × Option String)) (quiz : Json)
    (kvs : List (String × Json)) (bs ms hs : List Json)
    (hquiz : quiz = Json.obj kvs)
    (hb : kvs.lookup "basic" = some (Json.arr bs))
    (hm : kvs.lookup "intermediate" = some (Json.arr ms))
    (hh : kvs.lookup "hard" = some (Json.arr hs))
    (hready : ∀ q ∈ bs ++ ms ++ hs, evalReady q = true)
    (hua : NoneFree ua) :
    evaluate_answers ua quiz =
      Except.ok (specTierScore ua "basic" bs + specTierScore ua "intermediate" ms +
          specTierScore ua "hard" hs,
        specTierFeedback ua "basic" bs ++ specTierFeedback ua "intermediate" ms ++
          specTierFeedback ua "hard" hs) := by
  subst hquiz
  have hrb : ∀ q ∈ bs, evalReady q = true := fun q hq => hready q (by simp [hq])
  have hrm : ∀ q ∈ ms, evalReady q = true := fun q hq => hready q (by simp [hq])
  have hrh : ∀ q ∈ hs, evalReady q = true := fun q hq => hready q (by simp [hq])
  simp [evaluate_answers, evalTier, hb, hm, hh, pyIterate,
    evalQuestions_spec ua "basic" bs 0 hrb hua,
    evalQuestions_spec ua "intermediate" ms 0 hrm hua,
    evalQuestions_spec ua "hard" hs 0 hrh hua,
    specTierScore, specTierFeedback, List.enum]

theorem evalQuestions_error_of_none (ua : List (String × Option String))
    (level : String) (qs : List Json) (start i : Nat)
    (hready : ∀ q ∈ qs, evalReady q = true) (hi : i < qs.length)
    (hkey : ua.lookup (level ++ "_" ++ toString (start + i)) = some none) :
    ∃ e, evalQuestions ua level qs start = Except.error e := by
  induction qs generalizing start i with
  | nil => simp at hi
  | cons q rest ih =>
    cases i with
    | zero =>
      have hq := hready q (List.mem_cons_self _ _)
      have hkey0 : ua.lookup (level ++ "_" ++ toString start) = some none := by
        simpa using hkey
      cases q with
      | obj qkv =>
        cases hc : qkv.lookup "correct" with
        | none => simp [evalReady, hc] at hq
        | some c =>
          cases c with
          | str cs =>
            exact ⟨"AttributeError: NoneType has no attribute strip",
              by simp [evalQuestions, evalQuestion, hc, pyGetDefault, hkey0]⟩
          | null => simp [evalReady, hc] at hq
          | bool b => simp [evalReady, hc] at hq
          | num n => simp [evalReady, hc] at hq
          | arr xs => simp [evalReady, hc] at hq
          | obj kvs2 => simp [evalReady, hc] at hq
      | null => simp [evalReady] at hq
      | bool b => simp [evalReady] at hq
      | num n => simp [evalReady] at hq
      | str s => simp [evalReady] at hq
      | arr xs => simp [evalReady] at hq
    | succ j =>
      have hrest : ∀ r ∈ rest, evalReady r = true := fun r hr =>
        hready r (List.mem_cons_of_mem _ hr)
      have hkey1 : ua.lookup (level ++ "_" ++ toString ((start + 1) + j)) = some none := by
        have harith : start + (j + 1) = (start + 1) + j := by omega
        rwa [harith] at hkey
      have hj : j < rest.length := by simpa using Nat.lt_of_succ_lt_succ hi
      obtain ⟨e, he⟩ := ih (start + 1) j hrest hj hkey1
      cases hq1 : evalQuestion ua level start q with
      | error e1 => exact ⟨e1, by simp [evalQuestions, hq1]⟩
      | ok p =>
        obtain ⟨s, fb⟩ := p
        exact ⟨e, by simp [evalQuestions, hq1, he]⟩

theorem evaluate_answers_error_of_none (ua : List (String × Option String))
    (quiz : Json) (kvs : List (String × Json)) (level : String) (qs : List Json)
    (i : Nat) (hquiz : quiz = Json.obj kvs) (hlevel : level ∈ tierNames)
    (hq : kvs.lookup level = some (Json.arr qs))
    (hready : ∀ q ∈ qs, evalReady q = true) (hi : i < qs.length)
    (hnone : ua.lookup (level ++ "_" ++ toString i) = some none) :
    ∃ e, evaluate_answers ua quiz = Except.error e := by
  subst hquiz
  have hkey : ua.lookup (level ++ "_" ++ toString (0 + i)) = some none := by
    simpa using hnone
  have htier : ∃ e, evalTier ua kvs level = Except.error e := by
    obtain ⟨e, he⟩ := evalQuestions_error_of_none ua level qs 0 i hready hi hkey
    exact ⟨e, by simp [evalTier, hq, pyIterate, he]⟩
  simp only [tierNames, List.mem_cons, List.not_mem_nil, or_false] at hlevel
  rcases hlevel with rfl | rfl | rfl
  · obtain ⟨e, he⟩ := htier
    exact ⟨e, by simp [evaluate_answers, he]⟩
  · cases hbt : evalTier ua kvs "basic" with
    | error e1 => exact ⟨e1, by simp [evaluate_answers, hbt]⟩
    | ok p =>
      obtain ⟨s1, f1⟩ := p
      obtain ⟨e, he⟩ := htier
      exact ⟨e, by simp [evaluate_answers, hbt, he]⟩
  · cases hbt : evalTier ua kvs "basic" with
    | error e1 => exact ⟨e1, by simp [evaluate_answers, hbt]⟩
    | ok p =>
      obtain ⟨s1, f1⟩ := p
      cases hit : evalTier ua kvs "intermediate" with
      | error e2 => exact ⟨e2, by simp [evaluate_answers, hbt, hit]⟩
      | ok p2 =>
        obtain ⟨s2, f2⟩ := p2
        obtain ⟨e, he⟩ := htier
        exact ⟨e, by simp [evaluate_answers, hbt, hit, he]⟩

/-! ## Extraction lemmas -/

theorem dropWhile_head_of_getLast (l : List Char) (c : Char)
    (hc : isPySpace c = false) (hl : l.getLast? = some c) :
    (l.reverse.dropWhile isPySpace).head? = some c := by
  have hrev : l.reverse.head? = some c := by rw [List.head?_reverse]; exact hl
  cases hr : l.reverse with
  | nil => rw [hr] at hrev; simp at hrev
  | cons a tl =>
    rw [hr] at hrev
    simp only [List.head?_cons, Option.some.injEq] at hrev
    subst hrev
    simp [List.dropWhile_cons, hc]

theorem reSearch_of_find_getLast (t : List Char) (i : Nat)
    (hfind : pyFindChar lbrace t = some i) (hlast : t.getLast? = some rbrace) :
    reSearchBraceToEnd t = some (t.drop i) := by
  induction t generalizing i with
  | nil => simp [pyFindChar] at hfind
  | cons c rest ih =>
    by_cases hc : (c == lbrace) = true
    · have hf0 : pyFindChar lbrace (c :: rest) = some 0 := by simp [pyFindChar, hc]
      rw [hf0] at hfind
      have hi : i = 0 := by simpa using hfind.symm
      subst hi
      cases hrest : rest with
      | nil =>
        subst hrest
        have hcr : c = rbrace := by simpa using hlast
        have hcl : c = lbrace := by simpa using hc
        rw [hcl] at hcr
        exact absurd hcr (by decide)
      | cons d ds =>
        have hl2 : rest.getLast? = some rbrace := by
          rw [hrest]
          rw [hrest, List.getLast?_cons_cons] at hlast
          exact hlast
        have hcond := dropWhile_head_of_getLast rest rbrace (by decide) hl2
        rw [← hrest]
        simp only [reSearchBraceToEnd, hf0]
        rw [if_pos (by simpa using hcond)]
    · have hstep : pyFindChar lbrace (c :: rest) = (pyFindChar lbrace rest).map (· + 1) := by
        simp [pyFindChar, hc]
      cases hj : pyFindChar lbrace rest with
      | none => rw [hstep, hj] at hfind; simp at hfind
      | some j =>
        rw [hstep, hj] at hfind
        simp only [Option.map_some', Option.some.injEq] at hfind
        subst hfind
        cases hrest : rest with
        | nil => rw [hrest] at hj; simp [pyFindChar] at hj
        | cons d ds =>
          have hlr : rest.getLast? = some rbrace := by
            rw [hrest]
            rw [hrest, List.getLast?_cons_cons] at hlast
            exact hlast
          rw [← hrest] at *
          have hIH := ih j hj hlr
          simp only [reSearchBraceToEnd, hj] at hIH
          by_cases hcond :
              ((rest.drop (j + 1)).reverse.dropWhile isPySpace).head? = some rbrace
          · have hf : pyFindChar lbrace (c :: rest) = some (j + 1) := by
              simp [pyFindChar, hc, hj]
            simp only [reSearchBraceToEnd, hf, List.drop_succ_cons]
            rw [if_pos hcond]
          · rw [if_neg hcond] at hIH
            cases hIH

/-! ## PDF text lemma -/

theorem collectPageTexts_eq_filterMap (pages : List (Option String)) :
    collectPageTexts pages = pages.filterMap pageContribution := by
  induction pages with
  | nil => simp [collectPageTexts]
  | cons p rest ih =>
    cases p with
    | none => simp [collectPageTexts, pageContribution, ih]
    | some s =>
      by_cases hs : s = ""
      · simp [collectPageTexts, pageContribution, hs, ih]
      · simp [collectPageTexts, pageContribution, hs, ih]

/-! ## Claims -/

/-- Claim C1: for every model response string and every positive integer n,
`generate_quiz_from_text` either fails or returns a quiz in which each of
the keys basic, intermediate, hard maps to a list of exactly n question
objects; it never returns a quiz with a different per-tier count. -/
theorem claim_C1_per_tier_count (parseJson : String → Except String Json)
    (raw : String) (n : Nat) (data : Json) (_hn : 0 < n)
    (h : generate_quiz_from_text parseJson raw n = Except.ok data) :
    ∀ level ∈ tierNames, ∃ kvs qs, data = Json.obj kvs ∧
      kvs.lookup level = some (Json.arr qs) ∧ qs.length = n ∧
      ∀ q ∈ qs, QuestionWF q := by
  unfold generate_quiz_from_text at h
  cases hx : _extract_json_block raw with
  | error e => simp [hx] at h
  | ok js =>
    simp only [hx] at h
    cases hp : parseJson js with
    | error e => simp [hp] at h
    | ok d =>
      simp only [hp] at h
      cases hv : _validate_quiz_schema d n with
      | error e => simp [hv] at h
      | ok u =>
        cases u
        simp only [hv, Except.ok.injEq] at h
        subst h
        exact fun level hlevel => (validate_ok_iff d n).mp hv level hlevel

/-- Witness for C1: a parser returning the valid one-question-per-tier quiz
makes generation succeed with exactly one question in each tier. -/
theorem claim_C1_per_tier_count_witness :
    0 < 1 ∧ generate_quiz_from_text pjGood1 "\x7b\x7d" 1 = Except.ok quizGood1 ∧
    ∀ level ∈ tierNames, ∃ kvs qs, quizGood1 = Json.obj kvs ∧
      kvs.lookup level = some (Json.arr qs) ∧ qs.length = 1 ∧
      ∀ q ∈ qs, QuestionWF q :=
  ⟨by decide, rfl, claim_C1_per_tier_count pjGood1 "\x7b\x7d" 1 quizGood1 (by decide) rfl⟩

/-- Claim C2: `_validate_quiz_schema` returns normally exactly on data where
every tier key maps to a list of exactly n question objects carrying the
four required fields, letter options A-D and a letter `correct`, and a
near-miss (one tier holding n-1 questions, the rest well-formed) is
rejected wholesale with an error naming the offending tier. -/
theorem claim_C2_validator_exact :
    (∀ data n, _validate_quiz_schema data n = Except.ok () ↔ QuizWF data n) ∧
    _validate_quiz_schema nearMissQuiz 2 =
      Except.error "\"basic\" must have exactly 2 questions; got 1." :=
  ⟨validate_ok_iff, rfl⟩

/-- Witness for C2: the exactness direction applied to a concrete valid quiz. -/
theorem claim_C2_validator_exact_witness : QuizWF quizGood1 1 :=
  (claim_C2_validator_exact.1 quizGood1 1).mp rfl

/-- Claim C3: extraction returns the regex match (the block from the first
opening brace of the stripped text to its end) whenever the stripped text
ends in a closing brace with an opening brace before it; otherwise it falls
back to the span from the first opening brace to the last closing brace of
the original text when the former strictly precedes the latter; otherwise
it raises the parse error; and a JSON object wrapped in brace-free prose on
both sides is extracted as the inner object. -/
theorem claim_C3_extract_json_block (text : String) :
    (∀ i, pyFindChar lbrace (pyStripList text.data) = some i →
      (pyStripList text.data).getLast? = some rbrace →
      _extract_json_block text =
        Except.ok (String.mk ((pyStripList text.data).drop i))) ∧
    (reSearchBraceToEnd (pyStripList text.data) = none →
      ∀ s e, pyFindChar lbrace text.data = some s →
        pyRFindChar rbrace text.data = some e → s < e →
        _extract_json_block text =
          Except.ok (String.mk ((text.data.drop s).take (e + 1 - s)))) ∧
    (reSearchBraceToEnd (pyStripList text.data) = none →
      (∀ s e, pyFindChar lbrace text.data = some s →
        pyRFindChar rbrace text.data = some e → e ≤ s) →
      _extract_json_block text = Except.error "No JSON object found in model output.") ∧
    _extract_json_block "Sure thing! \x7bquiz: 1\x7d Hope it helps." =
      Except.ok "\x7bquiz: 1\x7d" := by
  refine ⟨?_, ?_, ?_, rfl⟩
  · intro i hf hl
    have hre := reSearch_of_find_getLast _ i hf hl
    unfold _extract_json_block
    simp only [hre]
  · intro hnone s e hs he hlt
    unfold _extract_json_block
    simp only [hnone, hs, he]
    rw [if_neg (by omega)]
  · intro hnone hall
    unfold _extract_json_block
    cases hs : pyFindChar lbrace text.data with
    | none =>
      cases he : pyRFindChar rbrace text.data with
      | none => simp [hnone, hs, he]
      | some e => simp [hnone, hs, he]
    | some s =>
      cases he : pyRFindChar rbrace text.data with
      | none => simp [hnone, hs, he]
      | some e =>
        simp only [hnone, hs, he]
        rw [if_pos (hall s e hs he)]

/-- Witness for C3: a response with prose before the block ending at the
string's end takes the regex path and yields the block. -/
theorem claim_C3_extract_json_block_witness :
    _extract_json_block "pre \x7ba: 1\x7d" = Except.ok "\x7ba: 1\x7d" := by
  exact (claim_C3_extract_json_block "pre \x7ba: 1\x7d").1 4 rfl rfl

/-- Claim C4: on a quiz holding the three tier keys (with question objects
the evaluator can read) and an answer map recording letters,
`evaluate_answers` returns one feedback entry per question, ordered by tier
in the fixed order basic, intermediate, hard and by ascending index within
each tier, each entry carrying the question's text and explanation, and a
score counting the questions whose normalized recorded answer equals the
normalized correct letter. -/
theorem claim_C4_evaluator_order_and_score (ua : List (String × Option String))
    (quiz : Json) (kvs : List (String × Json)) (bs ms hs : List Json)
    (hquiz : quiz = Json.obj kvs)
    (hb : kvs.lookup "basic" = some (Json.arr bs))
    (hm : kvs.lookup "intermediate" = some (Json.arr ms))
    (hh : kvs.lookup "hard" = some (Json.arr hs))
    (hready : ∀ q ∈ bs ++ ms ++ hs, evalReady q = true)
    (hua : NoneFree ua) :
    evaluate_answers ua quiz =
      Except.ok (specTierScore ua "basic" bs + specTierScore ua "intermediate" ms +
          specTierScore ua "hard" hs,
        specTierFeedback ua "basic" bs ++ specTierFeedback ua "intermediate" ms ++
          specTierFeedback ua "hard" hs) :=
  evaluate_answers_spec ua quiz kvs bs ms hs hquiz hb hm hh hready hua

/-- Witness for C4: the spec's two-question example — Q1 answered correctly,
Q2 unanswered — scores 1 with two feedback entries, the second naming the
correct letter B as wrong. -/
theorem claim_C4_evaluator_order_and_score_witness :
    evaluate_answers [("basic_0", some "A")] quizEval2 =
      Except.ok (1, [⟨Json.str "Q1", "Correct", Json.str "E1"⟩,
        ⟨Json.str "Q2", "Wrong (Correct: B)", Json.str "E2"⟩]) := by
  exact claim_C4_evaluator_order_and_score [("basic_0", some "A")] quizEval2
    [("basic", Json.arr [q1, q2]), ("intermediate", Json.arr []), ("hard", Json.arr [])]
    [q1, q2] [] [] rfl rfl rfl rfl (by decide) (by simp [NoneFree])

/-- Claim C5: on quizzes whose questions carry string `correct` fields (and
readable text/explanation) and answer maps with string values,
`evaluate_answers` returns normally; normalization trims and uppercases so
a recorded " a " matches a correct "A"; an absent answer is compared as the
empty value and counted incorrect without raising. -/
theorem claim_C5_evaluator_total_and_normalizing :
    (∀ ua quiz kvs bs ms hs, quiz = Json.obj kvs →
      kvs.lookup "basic" = some (Json.arr bs) →
      kvs.lookup "intermediate" = some (Json.arr ms) →
      kvs.lookup "hard" = some (Json.arr hs) →
      (∀ q ∈ bs ++ ms ++ hs, evalReady q = true) → NoneFree ua →
      ∃ r, evaluate_answers ua quiz = Except.ok r) ∧
    evaluate_answers [("basic_0", some " a ")] quizGood1 =
      Except.ok (1, [⟨Json.str "Q1", "Correct", Json.str "E1"⟩,
        ⟨Json.str "Q1", "Wrong (Correct: A)", Json.str "E1"⟩,
        ⟨Json.str "Q1", "Wrong (Correct: A)", Json.str "E1"⟩]) ∧
    evaluate_answers [] quizGood1 =
      Except.ok (0, [⟨Json.str "Q1", "Wrong (Correct: A)", Json.str "E1"⟩,
        ⟨Json.str "Q1", "Wrong (Correct: A)", Json.str "E1"⟩,
        ⟨Json.str "Q1", "Wrong (Correct: A)", Json.str "E1"⟩]) :=
  ⟨fun ua quiz kvs bs ms hs h1 h2 h3 h4 h5 h6 =>
    ⟨_, evaluate_answers_spec ua quiz kvs bs ms hs h1 h2 h3 h4 h5 h6⟩, rfl, rfl⟩

/-- Witness for C5: totality applied to a concrete quiz and answer map. -/
theorem claim_C5_evaluator_total_and_normalizing_witness :
    ∃ r, evaluate_answers [("basic_0", some "A")] quizGood1 = Except.ok r :=
  claim_C5_evaluator_total_and_normalizing.1 [("basic_0", some "A")] quizGood1
    [("basic", Json.arr [q1]), ("intermediate", Json.arr [q1]), ("hard", Json.arr [q1])]
    [q1] [q1] [q1] rfl rfl rfl rfl (by decide) (by simp [NoneFree])

/-- Claim C6: in any quiz accepted by `_validate_quiz_schema`, every
question's `correct` value is a string present among the keys of that
question's options object. -/
theorem claim_C6_correct_in_options (data : Json) (n : Nat)
    (kvs : List (String × Json)) (level : String) (qs : List Json) (q : Json)
    (qkv : List (String × Json)) (c : Json)
    (hok : _validate_quiz_schema data n = Except.ok ())
    (hdata : data = Json.obj kvs) (hlevel : level ∈ tierNames)
    (hlk : kvs.lookup level = some (Json.arr qs)) (hmem : q ∈ qs)
    (hobj : q = Json.obj qkv) (hc : qkv.lookup "correct" = some c) :
    ∃ s ov, c = Json.str s ∧ qkv.lookup "options" = some (Json.obj ov) ∧
      ∃ w, ov.lookup s = some w := by
  subst hdata
  subst hobj
  obtain ⟨kvs2, qs2, hk2, hl2, _hlen2, hall⟩ :=
    (validate_ok_iff (Json.obj kvs) n).mp hok level hlevel
  injection hk2 with hk2
  subst hk2
  rw [hlk] at hl2
  injection hl2 with hl2
  injection hl2 with hl2
  subst hl2
  obtain ⟨qkv2, hq2, _hkeys, ⟨ov, hov, hletters⟩, ⟨s, hcs, hsmem⟩⟩ := hall _ hmem
  injection hq2 with hq2
  subst hq2
  rw [hc] at hcs
  injection hcs with hcs
  obtain ⟨w, hw⟩ := hletters s hsmem
  exact ⟨s, ov, hcs, hov, w, hw⟩

/-- Witness for C6: the invariant read off the concrete valid quiz. -/
theorem claim_C6_correct_in_options_witness :
    ∃ s ov, Json.str "A" = Json.str s ∧
      q1kv.lookup "options" = some (Json.obj ov) ∧ ∃ w, ov.lookup s = some w :=
  claim_C6_correct_in_options quizGood1 1
    [("basic", Json.arr [q1]), ("intermediate", Json.arr [q1]), ("hard", Json.arr [q1])]
    "basic" [q1] q1 q1kv (Json.str "A") rfl rfl (by decide) rfl
    (List.mem_cons_self q1 []) rfl rfl

/-- Claim C7: `extract_text_from_pdf` returns the newline-joined
concatenation, in document order, of exactly the pages yielding non-empty
text, and the empty string when no page yields text. -/
theorem claim_C7_pdf_text (pages : List (Option String)) :
    extract_text_from_pdf pages =
      String.intercalate "\n" (pages.filterMap pageContribution) ∧
    ((∀ p ∈ pages, pageContribution p = none) → extract_text_from_pdf pages = "") := by
  constructor
  · simp [extract_text_from_pdf, collectPageTexts_eq_filterMap]
  · intro h
    have hnil : pages.filterMap pageContribution = [] := by
      simpa using h
    simp [extract_text_from_pdf, collectPageTexts_eq_filterMap, hnil]
    rfl
  
/-- Witness for C7: a document with one empty and one text-free page joins
the two non-empty pages; a document with no extractable text gives "". -/
theorem claim_C7_pdf_text_witness :
    extract_text_from_pdf [some "page one", none, some "", some "page two"] =
      String.intercalate "\n"
        ([some "page one", none, some "", some "page two"].filterMap pageContribution) ∧
    extract_text_from_pdf [none, some ""] = "" :=
  ⟨(claim_C7_pdf_text [some "page one", none, some "", some "page two"]).1,
   (claim_C7_pdf_text [none, some ""]).2 (by decide)⟩

/-- Claim C8 as stated is false on the code: the generation error handler
also clears the cached results.  Concretely, from a state whose
`results_cache` holds a prior score, a failing generation leaves
`results_cache` changed (cleared), not untouched. -/
theorem claim_C8_counterexample :
    (generate_pipeline "material" pjC8 "no json here" s0C8).results_cache = none ∧
    s0C8.results_cache = some (2, []) ∧
    (generate_pipeline "material" pjC8 "no json here" s0C8).results_cache ≠
      s0C8.results_cache :=
  ⟨rfl, rfl, fun h => Bool.noConfusion (congrArg Option.isSome h)⟩

/-- Claim C8, amended: on any generation-time error the handler clears the
in-progress quiz and the cached results and leaves the recorded answers,
submission locks, uploaded file, info banner and settings unchanged. -/
theorem claim_C8_amended_frame (material : String)
    (parseJson : String → Except String Json) (raw : String) (s : SessionState)
    (e : String) (hm : material ≠ "")
    (hgen : generate_quiz_from_text parseJson raw s.n_per_level = Except.error e) :
    (generate_pipeline material parseJson raw s).quiz_data = none ∧
    (generate_pipeline material parseJson raw s).results_cache = none ∧
    (generate_pipeline material parseJson raw s).user_answers = s.user_answers ∧
    (generate_pipeline material parseJson raw s).submitted_q = s.submitted_q ∧
    (generate_pipeline material parseJson raw s).pdf_file = s.pdf_file ∧
    (generate_pipeline material parseJson raw s).material_info = s.material_info ∧
    (generate_pipeline material parseJson raw s).chunk_size = s.chunk_size ∧
    (generate_pipeline material parseJson raw s).chunk_overlap = s.chunk_overlap ∧
    (generate_pipeline material parseJson raw s).n_per_level = s.n_per_level := by
  simp [generate_pipeline, hm, hgen]

/-- Witness for C8 (amended): the concrete failing generation clears the
quiz and results and preserves answers, locks, file and settings. -/
theorem claim_C8_amended_frame_witness :
    ("material" ≠ "") ∧
    (generate_pipeline "material" pjC8 "no json here" s0C8).quiz_data = none ∧
    (generate_pipeline "material" pjC8 "no json here" s0C8).user_answers =
      s0C8.user_answers ∧
    (generate_pipeline "material" pjC8 "no json here" s0C8).submitted_q =
      s0C8.submitted_q ∧
    (generate_pipeline "material" pjC8 "no json here" s0C8).pdf_file = s0C8.pdf_file :=
  ⟨by decide,
   (claim_C8_amended_frame "material" pjC8 "no json here" s0C8
      "No JSON object found in model output." (by decide) rfl).1,
   (claim_C8_amended_frame "material" pjC8 "no json here" s0C8
      "No JSON object found in model output." (by decide) rfl).2.2.1,
   (claim_C8_amended_frame "material" pjC8 "no json here" s0C8
      "No JSON object found in model output." (by decide) rfl).2.2.2.1,
   (claim_C8_amended_frame "material" pjC8 "no json here" s0C8
      "No JSON object found in model output." (by decide) rfl).2.2.2.2.1⟩

/-- Claim C9: when the answer map binds a reached tier/index key to `None`
(what the UI records for a question submitted with no selection),
`evaluate_answers` raises instead of counting the question incorrect. -/
theorem claim_C9_none_answer_raises (ua : List (String × Option String))
    (quiz : Json) (kvs : List (String × Json)) (level : String) (qs : List Json)
    (i : Nat) (hquiz : quiz = Json.obj kvs) (hlevel : level ∈ tierNames)
    (hq : kvs.lookup level = some (Json.arr qs))
    (hready : ∀ q ∈ qs, evalReady q = true) (hi : i < qs.length)
    (hnone : ua.lookup (level ++ "_" ++ toString i) = some none) :
    ∃ e, evaluate_answers ua quiz = Except.error e :=
  evaluate_answers_error_of_none ua quiz kvs level qs i hquiz hlevel hq hready hi hnone

/-- Witness for C9: a `None` recorded for basic question 0 makes evaluation
of the concrete quiz raise. -/
theorem claim_C9_none_answer_raises_witness :
    ∃ e, evaluate_answers [("basic_0", none)] quizGood1 = Except.error e :=
  claim_C9_none_answer_raises [("basic_0", none)] quizGood1
    [("basic", Json.arr [q1]), ("intermediate", Json.arr [q1]), ("hard", Json.arr [q1])]
    "basic" [q1] 0 rfl (by decide) rfl (by decide) (by decide) rfl

/-- Claim C10: the validator checks presence only — any data satisfying the
presence requirements passes, and in particular a quiz carrying an extra
top-level key, an extra question field and an extra option letter is
accepted. -/
theorem claim_C10_presence_only :
    (∀ data n, QuizWF data n → _validate_quiz_schema data n = Except.ok ()) ∧
    _validate_quiz_schema extrasQuiz 1 = Except.ok () :=
  ⟨fun data n h => (validate_ok_iff data n).mpr h, rfl⟩

/-- Witness for C10: the acceptance direction applied to the quiz with
extra keys at every layer. -/
theorem claim_C10_presence_only_witness :
    _validate_quiz_schema extrasQuiz 1 = Except.ok () :=
  claim_C10_presence_only.1 extrasQuiz 1 ((validate_ok_iff extrasQuiz 1).mp rfl)
